import Mathlib

/-!
Verification development for the Spec2Test repository: a shallow embedding
of `src/main.py`, `src/extract_text.py`, `src/export_excel.py`,
`src/ai_engines/openai_engine.py` and `src/ai_engines/gemini_engine.py`.

Python values that may appear in a parsed JSON document or a parsed YAML
configuration are modelled by the inductive type `JVal`; Python dicts are
association lists (`Dict`); a Python-level exception is a `PyErr` carrying
the exception class and its message.  Library calls whose behaviour is not
part of this repository (file system reads, the two HTTP APIs,
`json.loads`, `yaml.safe_load`, the openpyxl writer) are abstracted into a
`World` record, so every theorem quantifies over all behaviours of those
libraries.  Printing, raised exceptions, `sys.exit`, and the externally
visible calls of a run are tracked by the writer/exception monad `PRes`.
-/

/-- A Python value arising from JSON / YAML: strings, integers, booleans,
`None`, lists and dicts. -/
inductive JVal where
  | str (s : String)
  | num (n : Int)
  | bool (b : Bool)
  | null
  | arr (items : List JVal)
  | obj (fields : List (String × JVal))

/-- A Python dict with string keys, as produced by `json.loads` /
`yaml.safe_load`: an association list. -/
abbrev Dict := List (String × JVal)

/-- `d.get(k)` without a default: the value at the first matching key. -/
def dictGet (d : Dict) (k : String) : Option JVal :=
  match d with
  | [] => none
  | (k₀, v) :: rest => if k₀ = k then some v else dictGet rest k

/-- `d.get(k, default)`. -/
def dictGetD (d : Dict) (k : String) (default : JVal) : JVal :=
  (dictGet d k).getD default

/-- Python truthiness test on a `JVal` (`if not x` takes the branch exactly
when this is `false`). -/
def jvalTruthy : JVal → Bool
  | .str s => !s.isEmpty
  | .num n => n ≠ 0
  | .bool b => b
  | .null => false
  | .arr items => !items.isEmpty
  | .obj fields => !fields.isEmpty

/-- The Python class name of a `JVal`, used in `AttributeError` messages. -/
def pyTypeName : JVal → String
  | .str _ => "str"
  | .num _ => "int"
  | .bool _ => "bool"
  | .null => "NoneType"
  | .arr _ => "list"
  | .obj _ => "dict"

mutual
/-- Python `repr` of a `JVal`.  (String escaping inside `repr` is not
modelled: a string is shown between plain quotes.) -/
def pyRepr : JVal → String
  | .str s => "\x27" ++ s ++ "\x27"
  | .num n => toString n
  | .bool b => if b then "True" else "False"
  | .null => "None"
  | .arr items => "[" ++ pyReprList items ++ "]"
  | .obj fields => "\x7b" ++ pyReprObj fields ++ "\x7d"

/-- `repr` of the elements of a Python list, comma separated. -/
def pyReprList : List JVal → String
  | [] => ""
  | [v] => pyRepr v
  | v :: rest => pyRepr v ++ ", " ++ pyReprList rest

/-- `repr` of the entries of a Python dict, comma separated. -/
def pyReprObj : List (String × JVal) → String
  | [] => ""
  | [(k, v)] => "\x27" ++ k ++ "\x27: " ++ pyRepr v
  | (k, v) :: rest => "\x27" ++ k ++ "\x27: " ++ pyRepr v ++ ", " ++ pyReprObj rest
end

/-- Python `str` of a `JVal`: the string itself for a `str`, `repr`-style
rendering otherwise. -/
def pyStr : JVal → String
  | .str s => s
  | v => pyRepr v

/-- A raised Python exception: its class and its `str(e)` message.
`ValueError` and `ImportError` are distinguished because the code raises
them deliberately; every other `Exception` is `exc`. -/
inductive PyErr where
  | valueError (msg : String)
  | importError (msg : String)
  | exc (msg : String)
deriving DecidableEq

/-- `str(e)` of an exception: its message. -/
def PyErr.message : PyErr → String
  | .valueError m => m
  | .importError m => m
  | .exc m => m

/-- Index of the first occurrence of `c` (Python `str.find`, as an
`Option` instead of `-1`). -/
def strFindIdx (c : Char) : List Char → Option Nat
  | [] => none
  | a :: rest => if a = c then some 0 else (strFindIdx c rest).map (· + 1)

/-- Index of the last occurrence of `c` (Python `str.rfind`, as an
`Option` instead of `-1`). -/
def strRfindIdx (c : Char) (l : List Char) : Option Nat :=
  match strFindIdx c l.reverse with
  | none => none
  | some i => some (l.length - 1 - i)

/-- Python `f"\x7bn:03d\x7d"` for a natural number: decimal, zero-padded to
width 3. -/
def pad3 (n : Nat) : String :=
  let s := toString n
  if s.length < 3 then String.mk (List.replicate (3 - s.length) '0') ++ s else s

/-- Python slice `s[a:b]` on a character list (`0 ≤ a ≤ b` in all uses
here; an empty slice when `b ≤ a`). -/
def pySlice (chars : List Char) (a b : Nat) : String :=
  String.mk ((chars.drop a).take (b - a))

/-- The code points of a Python string (Python indexes strings by code
point). -/
def pyChars (s : String) : List Char :=
  s.toList

/-- Python `str.lower`, per character (kernel-reducible, unlike
`String.toLower`). -/
def pyLower (s : String) : String :=
  String.mk (s.toList.map Char.toLower)

/-- Whether a character is stripped by Python `str.strip()`. -/
def pySpace (c : Char) : Bool :=
  c.isWhitespace

/-- Python `str.strip()`: whitespace removed from both ends. -/
def pyStrip (s : String) : String :=
  String.mk (((s.toList.dropWhile pySpace).reverse.dropWhile pySpace).reverse)

/-- Split a character list on a separator character (every occurrence
separates, empty parts kept). -/
def splitOnChar (sep : Char) : List Char → List (List Char)
  | [] => [[]]
  | c :: rest =>
    match splitOnChar sep rest with
    | [] => [[]]
    | cur :: parts => if c = sep then [] :: cur :: parts else (c :: cur) :: parts

/-- `s.startswith(pre)` via code-point lists. -/
def strStartsWith (s pre : String) : Bool :=
  (pyChars pre).isPrefixOf (pyChars s)

/-! ### `src/ai_engines/openai_engine.py` -/

/-- `OpenAIEngine._build_prompt` (openai_engine.py lines 68-106): the
f-string template with `requirement_text` interpolated. -/
def OpenAIEngine.build_prompt (requirement_text : String) : String :=
  "\nPlease analyze the following software requirement document and generate comprehensive manual test cases.\n\nREQUIREMENT DOCUMENT:\n"
  ++ requirement_text ++
  "\n\nINSTRUCTIONS:\n1. Identify all features and functionalities described in the requirements\n2. For each feature, generate relevant test cases\n3. Include positive, negative, and edge case scenarios\n4. Format the output as a JSON array where each test case has:\n   - feature: The feature/functionality being tested\n   - test_id: A unique identifier (e.g., TC001, TC002, etc.)\n   - title: A clear, descriptive test case title\n   - steps: An array of step-by-step instructions\n   - expected_result: The expected outcome\n   - priority: Test priority (High, Medium, or Low)\n\nEXAMPLE FORMAT:\n[\n    \x7b\n        \"feature\": \"User Login\",\n        \"test_id\": \"TC001\",\n        \"title\": \"Verify successful login with valid credentials\",\n        \"steps\": [\n            \"Navigate to login page\",\n            \"Enter valid username\",\n            \"Enter valid password\",\n            \"Click Login button\"\n        ],\n        \"expected_result\": \"User successfully logs in and is redirected to dashboard\",\n        \"priority\": \"High\"\n    \x7d\n]\n\nPlease provide ONLY the JSON array response, no additional text.\n"

/-- The `validated_tc` dict literal built for the `i`-th entry of the
parsed array (openai_engine.py lines 131-138). -/
def OpenAIEngine.validated_tc (i : Nat) (tc : Dict) : Dict :=
  [("feature", dictGetD tc "feature" (.str ("Feature " ++ toString (i + 1)))),
   ("test_id", dictGetD tc "test_id" (.str ("TC" ++ pad3 (i + 1)))),
   ("title", dictGetD tc "title" (.str ("Test Case " ++ toString (i + 1)))),
   ("steps", dictGetD tc "steps" (.arr [])),
   ("expected_result", dictGetD tc "expected_result" (.str "")),
   ("priority", dictGetD tc "priority" (.str "Medium"))]

/-- The `for i, tc in enumerate(testcases)` loop of
`OpenAIEngine._parse_response` (lines 125-139): non-dict entries are
skipped, the counter advances on every entry. -/
def OpenAIEngine.validateLoop : Nat → List JVal → List Dict
  | _, [] => []
  | i, .obj tc :: rest => OpenAIEngine.validated_tc i tc :: OpenAIEngine.validateLoop (i + 1) rest
  | i, _ :: rest => OpenAIEngine.validateLoop (i + 1) rest

/-- `OpenAIEngine._parse_response` (openai_engine.py lines 108-146).
`jsonLoads` abstracts `json.loads`; its `error` case is a
`json.JSONDecodeError` with the given message. -/
def OpenAIEngine.parse_response (jsonLoads : String → Except String JVal)
    (response_content : String) : Except PyErr (List Dict) :=
  match strFindIdx '[' (pyChars response_content) with
  | none => .error (.exc "Error parsing OpenAI response: No JSON array found in response")
  | some start_idx =>
    match strRfindIdx ']' (pyChars response_content) with
    | none => .error (.exc "Error parsing OpenAI response: No JSON array found in response")
    | some r =>
      match jsonLoads (pySlice (pyChars response_content) start_idx (r + 1)) with
      | .error e => .error (.exc ("Failed to parse JSON response: " ++ e))
      | .ok (.arr testcases) => .ok (OpenAIEngine.validateLoop 0 testcases)
      | .ok _ => .error (.exc "Error parsing OpenAI response: Response is not a list of test cases")

/-! ### `src/ai_engines/gemini_engine.py` -/

/-- `GeminiEngine._build_prompt` (gemini_engine.py lines 53-91). -/
def GeminiEngine.build_prompt (requirement_text : String) : String :=
  "\nPlease analyze the following software requirement document and generate comprehensive manual test cases.\n\nREQUIREMENT DOCUMENT:\n"
  ++ requirement_text ++
  "\n\nINSTRUCTIONS:\n1. Identify all features and functionalities described in the requirements\n2. For each feature, generate relevant test cases\n3. Include positive, negative, and edge case scenarios\n4. Format the output as a JSON array where each test case has:\n   - feature: The feature/functionality being tested\n   - test_id: A unique identifier (e.g., TC001, TC002, etc.)\n   - title: A clear, descriptive test case title\n   - steps: An array of step-by-step instructions\n   - expected_result: The expected outcome\n   - priority: Test priority (High, Medium, or Low)\n\nEXAMPLE FORMAT:\n[\n    \x7b\n        \"feature\": \"User Login\",\n        \"test_id\": \"TC001\",\n        \"title\": \"Verify successful login with valid credentials\",\n        \"steps\": [\n            \"Navigate to login page\",\n            \"Enter valid username\",\n            \"Enter valid password\",\n            \"Click Login button\"\n        ],\n        \"expected_result\": \"User successfully logs in and is redirected to dashboard\",\n        \"priority\": \"High\"\n    \x7d\n]\n\nPlease provide ONLY the JSON array response, no additional text.\n"

/-- The `validated_tc` dict literal of `GeminiEngine._parse_response`
(gemini_engine.py lines 116-123). -/
def GeminiEngine.validated_tc (i : Nat) (tc : Dict) : Dict :=
  [("feature", dictGetD tc "feature" (.str ("Feature " ++ toString (i + 1)))),
   ("test_id", dictGetD tc "test_id" (.str ("TC" ++ pad3 (i + 1)))),
   ("title", dictGetD tc "title" (.str ("Test Case " ++ toString (i + 1)))),
   ("steps", dictGetD tc "steps" (.arr [])),
   ("expected_result", dictGetD tc "expected_result" (.str "")),
   ("priority", dictGetD tc "priority" (.str "Medium"))]

/-- The validation loop of `GeminiEngine._parse_response`
(gemini_engine.py lines 110-124). -/
def GeminiEngine.validateLoop : Nat → List JVal → List Dict
  | _, [] => []
  | i, .obj tc :: rest => GeminiEngine.validated_tc i tc :: GeminiEngine.validateLoop (i + 1) rest
  | i, _ :: rest => GeminiEngine.validateLoop (i + 1) rest

/-- `GeminiEngine._parse_response` (gemini_engine.py lines 93-131). -/
def GeminiEngine.parse_response (jsonLoads : String → Except String JVal)
    (response_content : String) : Except PyErr (List Dict) :=
  match strFindIdx '[' (pyChars response_content) with
  | none => .error (.exc "Error parsing Gemini response: No JSON array found in response")
  | some start_idx =>
    match strRfindIdx ']' (pyChars response_content) with
    | none => .error (.exc "Error parsing Gemini response: No JSON array found in response")
    | some r =>
      match jsonLoads (pySlice (pyChars response_content) start_idx (r + 1)) with
      | .error e => .error (.exc ("Failed to parse JSON response: " ++ e))
      | .ok (.arr testcases) => .ok (GeminiEngine.validateLoop 0 testcases)
      | .ok _ => .error (.exc "Error parsing Gemini response: Response is not a list of test cases")

/-! ### Effects: printing, exceptions, `sys.exit`, externally visible calls -/

/-- Outcome of a Python computation: a value, a raised exception
(`Exception` subtree), or a `SystemExit` from `sys.exit(code)`.
`except Exception` catches `raised` but never `exited`. -/
inductive POut (α : Type) where
  | ok (a : α)
  | raised (e : PyErr)
  | exited (code : Nat)
deriving DecidableEq

/-- Externally visible calls of a run, recorded so that temporal and
pass-through claims can be stated. -/
inductive Event where
  | extractCall (path : String)
  | extractRet (text : String)
  | genCall (text : String)
  | apiRequest (prompt : String)
  | genRet (tcs : List Dict)
  | saveCall (tcs : List Dict) (path : String)

/-- A run: the printed lines, the emitted events, and the outcome. -/
structure PRes (α : Type) where
  log : List String
  events : List Event
  res : POut α

/-- Return. -/
def PRes.pure {α : Type} (a : α) : PRes α := ⟨[], [], .ok a⟩

/-- Sequencing: logs and events accumulate; `raised` and `exited` abort. -/
def PRes.bind {α β : Type} (x : PRes α) (f : α → PRes β) : PRes β :=
  match x.res with
  | .ok a => ⟨x.log ++ (f a).log, x.events ++ (f a).events, (f a).res⟩
  | .raised e => ⟨x.log, x.events, .raised e⟩
  | .exited n => ⟨x.log, x.events, .exited n⟩

/-- `print(m)`. -/
def PRes.printL (m : String) : PRes Unit := ⟨[m], [], .ok ()⟩

/-- Record an externally visible call. -/
def PRes.emit (ev : Event) : PRes Unit := ⟨[], [ev], .ok ()⟩

/-- `raise e`. -/
def PRes.raise {α : Type} (e : PyErr) : PRes α := ⟨[], [], .raised e⟩

/-- `sys.exit(n)`. -/
def PRes.sysExit {α : Type} (n : Nat) : PRes α := ⟨[], [], .exited n⟩

/-- `try: x except Exception as e: handler e` — a raised exception is
handled, a `sys.exit` and a normal result pass through. -/
def PRes.tryE {α : Type} (x : PRes α) (handler : PyErr → PRes α) : PRes α :=
  match x.res with
  | .raised e => ⟨x.log ++ (handler e).log, x.events ++ (handler e).events, (handler e).res⟩
  | _ => x

/-- Outcome of `open(path, encoding="utf-8").read()`: the text, a
`UnicodeDecodeError`, or any other `Exception` with its message. -/
inductive TxtErr where
  | unicodeDecodeError
  | ioError (msg : String)
deriving DecidableEq

/-- Behaviour of everything outside this repository: the file system, the
YAML and JSON libraries, the two LLM APIs and the spreadsheet writer.
Each field abstracts one library call site. -/
structure World where
  file_exists : String → Bool
  pdf_available : Bool
  docx_available : Bool
  pdf_pages : String → Except String (List String)
  docx_paragraphs : String → Except String (List String)
  txt_utf8 : String → Except TxtErr String
  txt_latin1 : String → Except String String
  config_file : String → Option (Except String JVal)
  openai_available : Bool
  gemini_available : Bool
  openai_api : JVal → String → Except String String
  gemini_api : JVal → String → Except String String
  jsonLoads : String → Except String JVal
  excel_write : String → Except String Unit

/-! ### `src/extract_text.py` -/

/-- `Path(file_path).name`: the final path component. -/
def pathName (file_path : String) : String :=
  String.mk (((splitOnChar '/' (pyChars file_path)).filter (fun part => !part.isEmpty)).getLast?.getD [])

/-- `Path(file_path).suffix`: from the last dot of the name when that dot
is neither the first nor the last character, else empty (the CPython
pathlib rule). -/
def pathSuffix (file_path : String) : String :=
  let name := pyChars (pathName file_path)
  match strRfindIdx '.' name with
  | none => ""
  | some i => if 0 < i ∧ i + 1 < name.length then String.mk (name.drop i) else ""

/-- `extract_text_from_pdf` (extract_text.py lines 26-40): the page loop
`text_content += page.extract_text() + "\n"`; `w.pdf_pages` abstracts the
PyPDF2 reader. -/
def extract_text_from_pdf (w : World) (file_path : String) : POut String :=
  if !w.pdf_available then
    .raised (.importError "PyPDF2 is required to read PDF files. Install with: pip install PyPDF2")
  else
    match w.pdf_pages file_path with
    | .error e => .raised (.exc ("Error reading PDF file: " ++ e))
    | .ok pages => .ok (String.join (pages.map (· ++ "\n")))

/-- `extract_text_from_docx` (extract_text.py lines 43-56). -/
def extract_text_from_docx (w : World) (file_path : String) : POut String :=
  if !w.docx_available then
    .raised (.importError "python-docx is required to read DOCX files. Install with: pip install python-docx")
  else
    match w.docx_paragraphs file_path with
    | .error e => .raised (.exc ("Error reading DOCX file: " ++ e))
    | .ok paragraphs => .ok (String.join (paragraphs.map (· ++ "\n")))

/-- `extract_text_from_txt` (extract_text.py lines 59-72): UTF-8 read with
a latin-1 retry on `UnicodeDecodeError`. -/
def extract_text_from_txt (w : World) (file_path : String) : POut String :=
  match w.txt_utf8 file_path with
  | .ok s => .ok s
  | .error .unicodeDecodeError =>
    match w.txt_latin1 file_path with
    | .ok s => .ok s
    | .error e => .raised (.exc ("Error reading TXT file: " ++ e))
  | .error (.ioError e) => .raised (.exc ("Error reading TXT file: " ++ e))

/-- `extract_text_from_file` (extract_text.py lines 75-91): dispatch on the
lower-cased suffix. -/
def extract_text_from_file (w : World) (file_path : String) : POut String :=
  let extension := pyLower (pathSuffix file_path)
  if extension = ".pdf" then extract_text_from_pdf w file_path
  else if extension = ".docx" then extract_text_from_docx w file_path
  else if extension = ".txt" then extract_text_from_txt w file_path
  else .raised (.valueError ("Unsupported file format: " ++ extension ++ ". Supported formats: .pdf, .docx, .txt"))

/-! ### `src/export_excel.py` -/

/-- One spreadsheet row, in the column order of the `row` dict literal
(export_excel.py lines 34-44). -/
structure Row where
  test_id : JVal
  feature : JVal
  title : JVal
  test_steps : String
  expected_result : JVal
  priority : JVal
  status : String
  actual_result : String
  notes : String

/-- The `steps_text` computation of the `for tc in testcases` loop
(export_excel.py lines 27-32): a list-valued `steps` is rendered as
numbered lines, anything else through `str`, a missing key as `str` of
the empty-string default. -/
def steps_text (tc : Dict) : String :=
  match dictGet tc "steps" with
  | some (.arr steps) =>
    String.intercalate "\n" (steps.enum.map (fun p => toString (p.1 + 1) ++ ". " ++ pyStr p.2))
  | some v => pyStr v
  | none => ""

/-- The `row` dict literal of the loop (export_excel.py lines 34-44). -/
def build_row (tc : Dict) : Row :=
  { test_id := dictGetD tc "test_id" (.str "")
    feature := dictGetD tc "feature" (.str "")
    title := dictGetD tc "title" (.str "")
    test_steps := steps_text tc
    expected_result := dictGetD tc "expected_result" (.str "")
    priority := dictGetD tc "priority" (.str "Medium")
    status := "Not Executed"
    actual_result := ""
    notes := "" }

/-- The row-building part of `save_testcases_to_excel` (export_excel.py
lines 12-48): `ValueError` on an empty list, else one row per test case.
The openpyxl writing and styling (lines 50-98) is presentation-level I/O,
abstracted by `World.excel_write` in `save_testcases_to_excel_run`. -/
def save_testcases_to_excel (testcases : List Dict) : Except PyErr (List Row) :=
  if testcases.isEmpty then .error (.valueError "No test cases to export")
  else .ok (testcases.map build_row)

/-- `save_testcases_to_excel` as run inside `main`, with the actual file
write and the success print. -/
def save_testcases_to_excel_run (w : World) (testcases : List Dict) (output_path : String) : PRes Unit :=
  PRes.bind (PRes.emit (.saveCall testcases output_path)) fun _ =>
  match save_testcases_to_excel testcases with
  | .error e => PRes.raise e
  | .ok _rows =>
    match w.excel_write output_path with
    | .error e => PRes.raise (.exc e)
    | .ok _ => PRes.printL ("✅ Excel file saved successfully: " ++ output_path)

/-! ### Engine construction and `generate_testcases` -/

/-- State of a constructed `OpenAIEngine`: `self.client` (identified by
the key it was built from) and `self.model`. -/
structure OpenAIEngineState where
  api_key : JVal
  model : JVal

/-- State of a constructed `GeminiEngine`: `self.model`, identified by the
name passed to `genai.GenerativeModel`. -/
structure GeminiEngineState where
  model : JVal

/-- `OpenAIEngine.__init__` (openai_engine.py lines 20-29). -/
def OpenAIEngine.init (w : World) (api_key model : JVal) : Except PyErr OpenAIEngineState :=
  if !w.openai_available then
    .error (.importError "OpenAI package is required. Install with: pip install openai")
  else if !(jvalTruthy api_key) then
    .error (.valueError "OpenAI API key is required")
  else .ok ⟨api_key, model⟩

/-- `GeminiEngine.__init__` (gemini_engine.py lines 20-29); the
`genai.configure` module-level effect happens here, not in
`generate_testcases`. -/
def GeminiEngine.init (w : World) (api_key model : JVal) : Except PyErr GeminiEngineState :=
  if !w.gemini_available then
    .error (.importError "Google Generative AI package is required. Install with: pip install google-generativeai")
  else if !(jvalTruthy api_key) then
    .error (.valueError "Gemini API key is required")
  else .ok ⟨model⟩

/-- The body of `OpenAIEngine.generate_testcases` (openai_engine.py lines
31-66): build the prompt, one `chat.completions.create` call inside a
`try`, parse, and wrap any exception. -/
def OpenAIEngine.generate_run (w : World) (self : OpenAIEngineState) (requirement_text : String) : PRes (List Dict) :=
  PRes.bind (PRes.emit (.genCall requirement_text)) fun _ =>
  let prompt := OpenAIEngine.build_prompt requirement_text
  PRes.tryE
    (PRes.bind (PRes.emit (.apiRequest prompt)) fun _ =>
      match w.openai_api self.model prompt with
      | .error e => PRes.raise (.exc e)
      | .ok content =>
        match OpenAIEngine.parse_response w.jsonLoads content with
        | .error e => PRes.raise e
        | .ok tcs => PRes.bind (PRes.emit (.genRet tcs)) fun _ => PRes.pure tcs)
    (fun e => PRes.raise (.exc ("Error calling OpenAI API: " ++ e.message)))

/-- `OpenAIEngine.generate_testcases` with the engine state and the
`genai`-module state threaded explicitly: the method assigns to neither,
so both come back unchanged. -/
def OpenAIEngine.generate_testcases (w : World) (genaiConfiguredKey : Option JVal)
    (self : OpenAIEngineState) (requirement_text : String) :
    Option JVal × OpenAIEngineState × PRes (List Dict) :=
  (genaiConfiguredKey, self, OpenAIEngine.generate_run w self requirement_text)

/-- The body of `GeminiEngine.generate_testcases` (gemini_engine.py lines
31-51): one `generate_content` call inside a `try`. -/
def GeminiEngine.generate_run (w : World) (self : GeminiEngineState) (requirement_text : String) : PRes (List Dict) :=
  PRes.bind (PRes.emit (.genCall requirement_text)) fun _ =>
  let prompt := GeminiEngine.build_prompt requirement_text
  PRes.tryE
    (PRes.bind (PRes.emit (.apiRequest prompt)) fun _ =>
      match w.gemini_api self.model prompt with
      | .error e => PRes.raise (.exc e)
      | .ok content =>
        match GeminiEngine.parse_response w.jsonLoads content with
        | .error e => PRes.raise e
        | .ok tcs => PRes.bind (PRes.emit (.genRet tcs)) fun _ => PRes.pure tcs)
    (fun e => PRes.raise (.exc ("Error calling Gemini API: " ++ e.message)))

/-- `GeminiEngine.generate_testcases` with engine and module state
threaded explicitly; the method assigns to neither. -/
def GeminiEngine.generate_testcases (w : World) (genaiConfiguredKey : Option JVal)
    (self : GeminiEngineState) (requirement_text : String) :
    Option JVal × GeminiEngineState × PRes (List Dict) :=
  (genaiConfiguredKey, self, GeminiEngine.generate_run w self requirement_text)

/-! ### `src/main.py` -/

/-- An engine returned by `get_ai_engine`. -/
inductive Engine where
  | openaiE (st : OpenAIEngineState)
  | geminiE (st : GeminiEngineState)

/-- Virtual dispatch of `ai_engine.generate_testcases(text_content)`. -/
def Engine.generate (w : World) : Engine → String → PRes (List Dict)
  | .openaiE st, text => (OpenAIEngine.generate_testcases w none st text).2.2
  | .geminiE st, text => (GeminiEngine.generate_testcases w none st text).2.2

/-- `AttributeError` raised by calling a missing attribute on a non-dict /
non-string value. -/
def attrError (v : JVal) (attr : String) : PyErr :=
  .exc ("\x27" ++ pyTypeName v ++ "\x27 object has no attribute \x27" ++ attr ++ "\x27")

/-- `load_config` (main.py lines 22-32): a missing file or a YAML error
prints and calls `sys.exit(1)` directly. -/
def load_config (w : World) (config_path : String) : PRes JVal :=
  match w.config_file config_path with
  | none => ⟨["❌ Configuration file \x27" ++ config_path ++ "\x27 not found."], [], .exited 1⟩
  | some (.error e) => ⟨["❌ Error parsing configuration file: " ++ e], [], .exited 1⟩
  | some (.ok cfg) => ⟨[], [], .ok cfg⟩

/-- `get_ai_engine` (main.py lines 35-53). `config.get` / `.lower()` on a
value of the wrong shape raises an `AttributeError`, modelled by
`attrError`. -/
def get_ai_engine (w : World) (config : JVal) : PRes Engine :=
  match config with
  | .obj cfg =>
    match dictGetD cfg "ai_engine" (.str "openai") with
    | .str s =>
      if pyLower s = "openai" then
        match dictGetD cfg "openai" (.obj []) with
        | .obj openai_config =>
          match OpenAIEngine.init w ((dictGet openai_config "api_key").getD .null)
              (dictGetD openai_config "model" (.str "gpt-4")) with
          | .ok st => PRes.pure (.openaiE st)
          | .error e => PRes.raise e
        | v => PRes.raise (attrError v "get")
      else if pyLower s = "gemini" then
        match dictGetD cfg "gemini" (.obj []) with
        | .obj gemini_config =>
          match GeminiEngine.init w ((dictGet gemini_config "api_key").getD .null)
              (dictGetD gemini_config "model" (.str "gemini-pro")) with
          | .ok st => PRes.pure (.geminiE st)
          | .error e => PRes.raise e
        | v => PRes.raise (attrError v "get")
      else
        ⟨["❌ Unsupported AI engine: " ++ pyLower s], [], .exited 1⟩
    | v => PRes.raise (attrError v "lower")
  | v => PRes.raise (attrError v "get")

/-- Parsed command-line arguments of `main` (main.py lines 58-76). -/
structure Args where
  input_file : String
  output : String
  config : String
deriving DecidableEq

/-- A token argparse treats as an optional flag. -/
def isOptionToken (t : String) : Bool := strStartsWith t "-" && t ≠ "-"

/-- The argparse configuration of main.py lines 58-76, modelled as a
recursive scan: one required positional `input_file`; `-o`/`--output`
(default `testcases.xlsx`) and `-c`/`--config` (default `config.yaml`),
each accepting a separated value, `--flag=value`, or an attached `-ovalue`
form.  Long-option prefix abbreviation and the bare `--` separator are not
modelled. -/
def parse_args_loop : List String → Option String → Option String → Option String → Except String Args
  | [], pos, o, c =>
    match pos with
    | none => .error "the following arguments are required: input_file"
    | some f => .ok ⟨f, o.getD "testcases.xlsx", c.getD "config.yaml"⟩
  | t :: rest, pos, o, c =>
    if t = "-o" ∨ t = "--output" then
      match rest with
      | [] => .error "argument -o/--output: expected one argument"
      | v :: rest2 => parse_args_loop rest2 pos (some v) c
    else if strStartsWith t "--output=" then
      parse_args_loop rest pos (some (t.drop 9)) c
    else if strStartsWith t "-o" ∧ ¬ strStartsWith t "--" then
      parse_args_loop rest pos (some (t.drop 2)) c
    else if t = "-c" ∨ t = "--config" then
      match rest with
      | [] => .error "argument -c/--config: expected one argument"
      | v :: rest2 => parse_args_loop rest2 pos o (some v)
    else if strStartsWith t "--config=" then
      parse_args_loop rest pos o (some (t.drop 9))
    else if strStartsWith t "-c" ∧ ¬ strStartsWith t "--" then
      parse_args_loop rest pos o (some (t.drop 2))
    else if isOptionToken t then
      .error ("unrecognized arguments: " ++ t)
    else
      match pos with
      | none => parse_args_loop rest (some t) o c
      | some _ => .error ("unrecognized arguments: " ++ t)

/-- `parser.parse_args()` for the parser built in `main`. -/
def parse_args (argv : List String) : Except String Args :=
  parse_args_loop argv none none none

/-- The body of the `try` block of `main` (main.py lines 86-115). -/
def main_pipeline (w : World) (args : Args) : PRes Unit :=
  PRes.bind (PRes.bind ⟨[], [.extractCall args.input_file], extract_text_from_file w args.input_file⟩
      (fun t => ⟨[], [.extractRet t], .ok t⟩)) fun text_content =>
  if (pyStrip text_content).isEmpty then
    PRes.bind (PRes.printL "❌ No text content found in the document.") fun _ => PRes.sysExit 1
  else
  PRes.bind (PRes.printL ("✅ Extracted " ++ toString text_content.length ++ " characters from document")) fun _ =>
  PRes.bind (load_config w args.config) fun config =>
  PRes.bind (get_ai_engine w config) fun ai_engine =>
  PRes.bind (match config with
    | .obj cfg => PRes.printL ("🤖 Using AI engine: " ++ pyStr (dictGetD cfg "ai_engine" (.str "openai")))
    | v => PRes.raise (attrError v "get")) fun _ =>
  PRes.bind (PRes.printL "🧪 Generating test cases...") fun _ =>
  PRes.bind (Engine.generate w ai_engine text_content) fun testcases =>
  if testcases.isEmpty then
    PRes.bind (PRes.printL "❌ No test cases were generated.") fun _ => PRes.sysExit 1
  else
  PRes.bind (PRes.printL ("✅ Generated " ++ toString testcases.length ++ " test cases")) fun _ =>
  PRes.bind (PRes.printL ("💾 Saving test cases to: " ++ args.output)) fun _ =>
  PRes.bind (save_testcases_to_excel_run w testcases args.output) fun _ =>
  PRes.printL "🎉 Test case generation completed successfully!"

/-- `main` (main.py lines 56-119): argparse (exit 2 on bad usage), the
input-existence check, and the single `try`/`except Exception` around the
pipeline. -/
def Main.main (w : World) (argv : List String) : PRes Unit :=
  match parse_args argv with
  | .error msg => ⟨["usage: " ++ msg], [], .exited 2⟩
  | .ok args =>
    if !w.file_exists args.input_file then
      ⟨["❌ Input file \x27" ++ args.input_file ++ "\x27 not found."], [], .exited 1⟩
    else
      PRes.bind (PRes.printL ("📖 Reading requirement document: " ++ args.input_file)) fun _ =>
      PRes.tryE (main_pipeline w args)
        (fun e => PRes.bind (PRes.printL ("❌ Error during processing: " ++ e.message)) fun _ => PRes.sysExit 1)

/-! ### Helper lemmas about the validation loops -/

/-- The OpenAI validation loop is the enumerate-filter-normalize of its
input: non-dict entries are dropped, the enumeration index advances on
every entry. -/
lemma openai_validateLoop_eq_enumFrom (items : List JVal) (i : Nat) :
    OpenAIEngine.validateLoop i items =
      (items.enumFrom i).filterMap (fun p =>
        match p.2 with
        | .obj d => some (OpenAIEngine.validated_tc p.1 d)
        | _ => none) := by
  induction items generalizing i with
  | nil => rfl
  | cons x rest ih =>
    cases x <;> simp [OpenAIEngine.validateLoop, List.enumFrom, List.filterMap_cons, ih]

/-- Gemini twin of `openai_validateLoop_eq_enumFrom`. -/
lemma gemini_validateLoop_eq_enumFrom (items : List JVal) (i : Nat) :
    GeminiEngine.validateLoop i items =
      (items.enumFrom i).filterMap (fun p =>
        match p.2 with
        | .obj d => some (GeminiEngine.validated_tc p.1 d)
        | _ => none) := by
  induction items generalizing i with
  | nil => rfl
  | cons x rest ih =>
    cases x <;> simp [GeminiEngine.validateLoop, List.enumFrom, List.filterMap_cons, ih]

/-- The two engines build identical normalized entries. -/
lemma validated_tc_openai_eq_gemini (i : Nat) (tc : Dict) :
    OpenAIEngine.validated_tc i tc = GeminiEngine.validated_tc i tc := rfl

/-- The two validation loops agree on every input. -/
lemma validateLoop_openai_eq_gemini (items : List JVal) (i : Nat) :
    OpenAIEngine.validateLoop i items = GeminiEngine.validateLoop i items := by
  induction items generalizing i with
  | nil => rfl
  | cons x rest ih =>
    cases x <;>
      simp [OpenAIEngine.validateLoop, GeminiEngine.validateLoop,
        OpenAIEngine.validated_tc, GeminiEngine.validated_tc, ih]

/-- The keys of a normalized entry, in order. -/
lemma validated_tc_keys (i : Nat) (tc : Dict) :
    (OpenAIEngine.validated_tc i tc).map Prod.fst =
      ["feature", "test_id", "title", "steps", "expected_result", "priority"] := rfl

/-- Case split on `OpenAIEngine._parse_response`: characterization of its
success value and of its three failure families. -/
lemma openai_parse_cases (jl : String → Except String JVal) (s : String) :
    (∀ tcs, OpenAIEngine.parse_response jl s = .ok tcs →
       ∃ a r items,
         strFindIdx '[' (pyChars s) = some a ∧ strRfindIdx ']' (pyChars s) = some r ∧
         jl (pySlice (pyChars s) a (r + 1)) = .ok (.arr items) ∧
         tcs = items.enum.filterMap (fun p =>
           match p.2 with
           | .obj d => some (OpenAIEngine.validated_tc p.1 d)
           | _ => none)) ∧
    ((strFindIdx '[' (pyChars s) = none ∨ strRfindIdx ']' (pyChars s) = none) →
       ∃ e, OpenAIEngine.parse_response jl s = .error e) ∧
    (∀ a r e, strFindIdx '[' (pyChars s) = some a → strRfindIdx ']' (pyChars s) = some r →
       jl (pySlice (pyChars s) a (r + 1)) = .error e →
       ∃ e2, OpenAIEngine.parse_response jl s = .error e2) ∧
    (∀ a r v, strFindIdx '[' (pyChars s) = some a → strRfindIdx ']' (pyChars s) = some r →
       jl (pySlice (pyChars s) a (r + 1)) = .ok v → (∀ items, v ≠ .arr items) →
       ∃ e2, OpenAIEngine.parse_response jl s = .error e2) ∧
    (∀ tcs, OpenAIEngine.parse_response jl s = .ok tcs →
       ∀ tc ∈ tcs, tc.map Prod.fst =
         ["feature", "test_id", "title", "steps", "expected_result", "priority"]) := by
  have main_split : ∀ tcs, OpenAIEngine.parse_response jl s = .ok tcs →
      ∃ a r items,
        strFindIdx '[' (pyChars s) = some a ∧ strRfindIdx ']' (pyChars s) = some r ∧
        jl (pySlice (pyChars s) a (r + 1)) = .ok (.arr items) ∧
        tcs = items.enum.filterMap (fun p =>
          match p.2 with
          | .obj d => some (OpenAIEngine.validated_tc p.1 d)
          | _ => none) := by
    intro tcs h
    unfold OpenAIEngine.parse_response at h
    cases hf : strFindIdx '[' (pyChars s) with
    | none => simp [hf] at h
    | some a =>
      cases hr : strRfindIdx ']' (pyChars s) with
      | none => simp [hf, hr] at h
      | some r =>
        cases hj : jl (pySlice (pyChars s) a (r + 1)) with
        | error e => simp [hf, hr, hj] at h
        | ok v =>
          cases v with
          | arr items =>
            refine ⟨a, r, items, rfl, rfl, hj, ?_⟩
            have hv : OpenAIEngine.validateLoop 0 items = tcs := by
              simpa [hf, hr, hj] using h
            rw [← hv, openai_validateLoop_eq_enumFrom, List.enum]
          | str v => simp [hf, hr, hj] at h
          | num v => simp [hf, hr, hj] at h
          | bool v => simp [hf, hr, hj] at h
          | null => simp [hf, hr, hj] at h
          | obj v => simp [hf, hr, hj] at h
  refine ⟨main_split, ?_, ?_, ?_, ?_⟩
  · intro hor
    unfold OpenAIEngine.parse_response
    cases hf : strFindIdx '[' (pyChars s) with
    | none => exact ⟨_, rfl⟩
    | some a =>
      cases hor with
      | inl h2 => rw [h2] at hf; cases hf
      | inr hr => rw [hr]; exact ⟨_, rfl⟩
  · intro a r e hf hr hj
    unfold OpenAIEngine.parse_response
    simp only [hf, hr, hj]
    exact ⟨_, rfl⟩
  · intro a r v hf hr hj hv
    unfold OpenAIEngine.parse_response
    simp only [hf, hr, hj]
    cases v with
    | arr items => exact absurd rfl (hv items)
    | str v => exact ⟨_, rfl⟩
    | num v => exact ⟨_, rfl⟩
    | bool v => exact ⟨_, rfl⟩
    | null => exact ⟨_, rfl⟩
    | obj v => exact ⟨_, rfl⟩
  · intro tcs h tc htc
    obtain ⟨a, r, items, _, _, _, htcs⟩ := main_split tcs h
    subst htcs
    obtain ⟨p, hmem, hp⟩ := List.mem_filterMap.mp htc
    cases hv : p.2 <;> rw [hv] at hp <;> simp at hp
    rw [← hp]
    exact validated_tc_keys p.1 _

/-- Case split on `GeminiEngine._parse_response`: characterization of its
success value and of its three failure families. -/
lemma gemini_parse_cases (jl : String → Except String JVal) (s : String) :
    (∀ tcs, GeminiEngine.parse_response jl s = .ok tcs →
       ∃ a r items,
         strFindIdx '[' (pyChars s) = some a ∧ strRfindIdx ']' (pyChars s) = some r ∧
         jl (pySlice (pyChars s) a (r + 1)) = .ok (.arr items) ∧
         tcs = items.enum.filterMap (fun p =>
           match p.2 with
           | .obj d => some (GeminiEngine.validated_tc p.1 d)
           | _ => none)) ∧
    ((strFindIdx '[' (pyChars s) = none ∨ strRfindIdx ']' (pyChars s) = none) →
       ∃ e, GeminiEngine.parse_response jl s = .error e) ∧
    (∀ a r e, strFindIdx '[' (pyChars s) = some a → strRfindIdx ']' (pyChars s) = some r →
       jl (pySlice (pyChars s) a (r + 1)) = .error e →
       ∃ e2, GeminiEngine.parse_response jl s = .error e2) ∧
    (∀ a r v, strFindIdx '[' (pyChars s) = some a → strRfindIdx ']' (pyChars s) = some r →
       jl (pySlice (pyChars s) a (r + 1)) = .ok v → (∀ items, v ≠ .arr items) →
       ∃ e2, GeminiEngine.parse_response jl s = .error e2) ∧
    (∀ tcs, GeminiEngine.parse_response jl s = .ok tcs →
       ∀ tc ∈ tcs, tc.map Prod.fst =
         ["feature", "test_id", "title", "steps", "expected_result", "priority"]) := by
  have main_split : ∀ tcs, GeminiEngine.parse_response jl s = .ok tcs →
      ∃ a r items,
        strFindIdx '[' (pyChars s) = some a ∧ strRfindIdx ']' (pyChars s) = some r ∧
        jl (pySlice (pyChars s) a (r + 1)) = .ok (.arr items) ∧
        tcs = items.enum.filterMap (fun p =>
          match p.2 with
          | .obj d => some (GeminiEngine.validated_tc p.1 d)
          | _ => none) := by
    intro tcs h
    unfold GeminiEngine.parse_response at h
    cases hf : strFindIdx '[' (pyChars s) with
    | none => simp [hf] at h
    | some a =>
      cases hr : strRfindIdx ']' (pyChars s) with
      | none => simp [hf, hr] at h
      | some r =>
        cases hj : jl (pySlice (pyChars s) a (r + 1)) with
        | error e => simp [hf, hr, hj] at h
        | ok v =>
          cases v with
          | arr items =>
            refine ⟨a, r, items, rfl, rfl, hj, ?_⟩
            have hv : GeminiEngine.validateLoop 0 items = tcs := by
              simpa [hf, hr, hj] using h
            rw [← hv, gemini_validateLoop_eq_enumFrom, List.enum]
          | str v => simp [hf, hr, hj] at h
          | num v => simp [hf, hr, hj] at h
          | bool v => simp [hf, hr, hj] at h
          | null => simp [hf, hr, hj] at h
          | obj v => simp [hf, hr, hj] at h
  refine ⟨main_split, ?_, ?_, ?_, ?_⟩
  · intro hor
    unfold GeminiEngine.parse_response
    cases hf : strFindIdx '[' (pyChars s) with
    | none => exact ⟨_, rfl⟩
    | some a =>
      cases hor with
      | inl h2 => rw [h2] at hf; cases hf
      | inr hr => rw [hr]; exact ⟨_, rfl⟩
  · intro a r e hf hr hj
    unfold GeminiEngine.parse_response
    simp only [hf, hr, hj]
    exact ⟨_, rfl⟩
  · intro a r v hf hr hj hv
    unfold GeminiEngine.parse_response
    simp only [hf, hr, hj]
    cases v with
    | arr items => exact absurd rfl (hv items)
    | str v => exact ⟨_, rfl⟩
    | num v => exact ⟨_, rfl⟩
    | bool v => exact ⟨_, rfl⟩
    | null => exact ⟨_, rfl⟩
    | obj v => exact ⟨_, rfl⟩
  · intro tcs h tc htc
    obtain ⟨a, r, items, _, _, _, htcs⟩ := main_split tcs h
    subst htcs
    obtain ⟨p, hmem, hp⟩ := List.mem_filterMap.mp htc
    cases hv : p.2 <;> rw [hv] at hp <;> simp at hp
    rw [← hp]
    exact validated_tc_keys p.1 _

/-- A concrete `json.loads` behaviour used to exercise the success path of
the parse theorems. -/
def jlC1 : String → Except String JVal :=
  fun _ => Except.ok (JVal.arr [JVal.num 1, JVal.obj [("title", JVal.str "A")]])

/-- C1: For every API response string, `_parse_response` (in both engines)
either fails with an exception — in particular when the string contains no
`[` or no `]`, when the extracted slice is not valid JSON, and when the
parsed value is not a list — or returns the enumerate-filter-normalization
of the parsed array: non-dict entries are dropped in order, and each kept
entry at parsed position `i` is the six-field dict `validated_tc i`,
whose missing fields are the positional defaults. -/
theorem claim_C1_parse_response_normalization (jl : String → Except String JVal) (s : String) :
    ((∀ tcs, OpenAIEngine.parse_response jl s = .ok tcs →
       ∃ a r items,
         strFindIdx '[' (pyChars s) = some a ∧ strRfindIdx ']' (pyChars s) = some r ∧
         jl (pySlice (pyChars s) a (r + 1)) = .ok (.arr items) ∧
         tcs = items.enum.filterMap (fun p =>
           match p.2 with
           | .obj d => some (OpenAIEngine.validated_tc p.1 d)
           | _ => none)) ∧
     ((strFindIdx '[' (pyChars s) = none ∨ strRfindIdx ']' (pyChars s) = none) →
       ∃ e, OpenAIEngine.parse_response jl s = .error e) ∧
     (∀ a r e, strFindIdx '[' (pyChars s) = some a → strRfindIdx ']' (pyChars s) = some r →
       jl (pySlice (pyChars s) a (r + 1)) = .error e →
       ∃ e2, OpenAIEngine.parse_response jl s = .error e2) ∧
     (∀ a r v, strFindIdx '[' (pyChars s) = some a → strRfindIdx ']' (pyChars s) = some r →
       jl (pySlice (pyChars s) a (r + 1)) = .ok v → (∀ items, v ≠ .arr items) →
       ∃ e2, OpenAIEngine.parse_response jl s = .error e2) ∧
     (∀ tcs, OpenAIEngine.parse_response jl s = .ok tcs →
       ∀ tc ∈ tcs, tc.map Prod.fst =
         ["feature", "test_id", "title", "steps", "expected_result", "priority"])) ∧
    ((∀ tcs, GeminiEngine.parse_response jl s = .ok tcs →
       ∃ a r items,
         strFindIdx '[' (pyChars s) = some a ∧ strRfindIdx ']' (pyChars s) = some r ∧
         jl (pySlice (pyChars s) a (r + 1)) = .ok (.arr items) ∧
         tcs = items.enum.filterMap (fun p =>
           match p.2 with
           | .obj d => some (GeminiEngine.validated_tc p.1 d)
           | _ => none)) ∧
     ((strFindIdx '[' (pyChars s) = none ∨ strRfindIdx ']' (pyChars s) = none) →
       ∃ e, GeminiEngine.parse_response jl s = .error e) ∧
     (∀ a r e, strFindIdx '[' (pyChars s) = some a → strRfindIdx ']' (pyChars s) = some r →
       jl (pySlice (pyChars s) a (r + 1)) = .error e →
       ∃ e2, GeminiEngine.parse_response jl s = .error e2) ∧
     (∀ a r v, strFindIdx '[' (pyChars s) = some a → strRfindIdx ']' (pyChars s) = some r →
       jl (pySlice (pyChars s) a (r + 1)) = .ok v → (∀ items, v ≠ .arr items) →
       ∃ e2, GeminiEngine.parse_response jl s = .error e2) ∧
     (∀ tcs, GeminiEngine.parse_response jl s = .ok tcs →
       ∀ tc ∈ tcs, tc.map Prod.fst =
         ["feature", "test_id", "title", "steps", "expected_result", "priority"])) :=
  ⟨openai_parse_cases jl s, gemini_parse_cases jl s⟩

/-- Witness for C1: the no-array failure on `"no array here"` for both
engines, and the success path on `"[1]"` with a parsed array whose first
entry is a non-dict (dropped) and whose second entry keeps its `title`. -/
theorem claim_C1_witness :
    (∃ e, OpenAIEngine.parse_response (fun _ => Except.error "boom") "no array here" = Except.error e) ∧
    (∃ e, GeminiEngine.parse_response (fun _ => Except.error "boom") "no array here" = Except.error e) ∧
    (∃ a r items,
      strFindIdx '[' (pyChars "[1]") = some a ∧ strRfindIdx ']' (pyChars "[1]") = some r ∧
      jlC1 (pySlice (pyChars "[1]") a (r + 1)) = .ok (.arr items) ∧
      [OpenAIEngine.validated_tc 1 [("title", JVal.str "A")]] = items.enum.filterMap (fun p =>
        match p.2 with
        | .obj d => some (OpenAIEngine.validated_tc p.1 d)
        | _ => none)) :=
  ⟨(claim_C1_parse_response_normalization (fun _ => Except.error "boom") "no array here").1.2.1
      (Or.inl (by decide)),
   (claim_C1_parse_response_normalization (fun _ => Except.error "boom") "no array here").2.2.1
      (Or.inl (by decide)),
   (claim_C1_parse_response_normalization jlC1 "[1]").1.1
      [OpenAIEngine.validated_tc 1 [("title", JVal.str "A")]] rfl⟩

/-- C3: the two engines implement extensionally equal response processing:
they accept exactly the same response strings with equal results, fail on
exactly the same response strings, and build the identical prompt. -/
theorem claim_C3_engines_equivalent (jl : String → Except String JVal) (s t : String) :
    (∀ l, OpenAIEngine.parse_response jl s = .ok l ↔ GeminiEngine.parse_response jl s = .ok l) ∧
    ((∃ e, OpenAIEngine.parse_response jl s = .error e) ↔
      (∃ e, GeminiEngine.parse_response jl s = .error e)) ∧
    OpenAIEngine.build_prompt t = GeminiEngine.build_prompt t := by
  refine ⟨?_, ?_, rfl⟩
  · intro l
    unfold OpenAIEngine.parse_response GeminiEngine.parse_response
    cases hf : strFindIdx '[' (pyChars s) with
    | none => simp
    | some a =>
      cases hr : strRfindIdx ']' (pyChars s) with
      | none => simp
      | some r =>
        cases hj : jl (pySlice (pyChars s) a (r + 1)) with
        | error e => simp [hj]
        | ok v => cases v <;> simp [hj, validateLoop_openai_eq_gemini]
  · unfold OpenAIEngine.parse_response GeminiEngine.parse_response
    cases hf : strFindIdx '[' (pyChars s) with
    | none => simp
    | some a =>
      cases hr : strRfindIdx ']' (pyChars s) with
      | none => simp
      | some r =>
        cases hj : jl (pySlice (pyChars s) a (r + 1)) with
        | error e => simp [hj]
        | ok v => cases v <;> simp [hj]

/-! ### Claim C6: spreadsheet rows -/

/-- Spec-side rendering of a steps list, as the claim words it: lines
numbered consecutively from 1, joined by newlines. -/
def claimNumberLines : Nat → List JVal → List String
  | _, [] => []
  | n, v :: rest => (toString n ++ ". " ++ pyStr v) :: claimNumberLines (n + 1) rest

/-- Spec-side steps rendering: newline-joined lines numbered from 1. -/
def claimNumbered (steps : List JVal) : String :=
  String.intercalate "\n" (claimNumberLines 1 steps)

/-- The code's enumerate-based numbering equals the spec-side consecutive
numbering. -/
lemma enumFrom_map_eq_claimNumberLines (l : List JVal) (k : Nat) :
    (l.enumFrom k).map (fun p => toString (p.1 + 1) ++ ". " ++ pyStr p.2) =
      claimNumberLines (k + 1) l := by
  induction l generalizing k with
  | nil => rfl
  | cons v rest ih => simp [List.enumFrom, claimNumberLines, ih]

/-- `steps_text` of a dict whose `steps` value is a list. -/
lemma steps_text_of_list (tc : Dict) (steps : List JVal)
    (h : dictGet tc "steps" = some (.arr steps)) :
    steps_text tc = claimNumbered steps := by
  unfold steps_text
  simp only [h]
  rw [claimNumbered, List.enum, enumFrom_map_eq_claimNumberLines]

/-- C6: for a non-empty list of test-case dicts, `save_testcases_to_excel`
builds exactly one row per test case in order; every row has Status
`"Not Executed"` and empty Actual Result and Notes; Priority defaults to
`"Medium"` when the dict has no `priority` key; a list-valued `steps` is
rendered as newline-joined lines numbered from 1.  For an empty list it
raises `ValueError` before any write happens. -/
theorem claim_C6_save_testcases_rows (testcases : List Dict) :
    (testcases = [] →
      save_testcases_to_excel testcases = .error (.valueError "No test cases to export")) ∧
    (∀ w out, testcases = [] →
      (save_testcases_to_excel_run w testcases out).res =
        .raised (.valueError "No test cases to export")) ∧
    (testcases ≠ [] → ∃ rows, save_testcases_to_excel testcases = .ok rows ∧
      rows.length = testcases.length ∧
      List.Forall₂ (fun tc r =>
        r.status = "Not Executed" ∧ r.actual_result = "" ∧ r.notes = "" ∧
        (dictGet tc "priority" = none → r.priority = .str "Medium") ∧
        (∀ steps, dictGet tc "steps" = some (.arr steps) → r.test_steps = claimNumbered steps))
        testcases rows) := by
  refine ⟨?_, ?_, ?_⟩
  · intro h
    subst h
    rfl
  · intro w out h
    subst h
    rfl
  · intro h
    refine ⟨testcases.map build_row, ?_, by simp, ?_⟩
    · unfold save_testcases_to_excel
      cases testcases with
      | nil => exact absurd rfl h
      | cons tc rest => rfl
    · rw [List.forall₂_map_right_iff, List.forall₂_same]
      intro tc _
      refine ⟨rfl, rfl, rfl, ?_, ?_⟩
      · intro hnone
        simp [build_row, dictGetD, hnone]
      · intro steps hsteps
        exact steps_text_of_list tc steps hsteps

/-- Witness for C6: the empty list raises, and a singleton list with a
two-step `steps` list produces its row. -/
theorem claim_C6_witness :
    save_testcases_to_excel [] = .error (.valueError "No test cases to export") ∧
    (∃ rows, save_testcases_to_excel [[("steps", JVal.arr [JVal.str "a", JVal.str "b"])]] = .ok rows ∧
      rows.length = [[("steps", JVal.arr [JVal.str "a", JVal.str "b"])]].length ∧
      List.Forall₂ (fun tc r =>
        r.status = "Not Executed" ∧ r.actual_result = "" ∧ r.notes = "" ∧
        (dictGet tc "priority" = none → r.priority = .str "Medium") ∧
        (∀ steps, dictGet tc "steps" = some (.arr steps) → r.test_steps = claimNumbered steps))
        [[("steps", JVal.arr [JVal.str "a", JVal.str "b"])]] rows) :=
  ⟨(claim_C6_save_testcases_rows []).1 rfl,
   (claim_C6_save_testcases_rows [[("steps", JVal.arr [JVal.str "a", JVal.str "b"])]]).2.2
     (by simp)⟩

/-! ### Claim C9: extension dispatch in `extract_text_from_file` -/

/-- The PDF reader never raises `ValueError`: only `ImportError` or a
wrapped generic `Exception`. -/
lemma extract_pdf_no_valueError (w : World) (fp m : String) :
    extract_text_from_pdf w fp ≠ .raised (.valueError m) := by
  unfold extract_text_from_pdf
  cases havail : w.pdf_available with
  | false => simp [havail]
  | true => cases hp : w.pdf_pages fp <;> simp [havail, hp]

/-- The DOCX reader never raises `ValueError`. -/
lemma extract_docx_no_valueError (w : World) (fp m : String) :
    extract_text_from_docx w fp ≠ .raised (.valueError m) := by
  unfold extract_text_from_docx
  cases havail : w.docx_available with
  | false => simp [havail]
  | true => cases hp : w.docx_paragraphs fp <;> simp [havail, hp]

/-- The TXT reader never raises `ValueError`. -/
lemma extract_txt_no_valueError (w : World) (fp m : String) :
    extract_text_from_txt w fp ≠ .raised (.valueError m) := by
  unfold extract_text_from_txt
  cases hu : w.txt_utf8 fp with
  | ok s => simp [hu]
  | error te =>
    cases te with
    | unicodeDecodeError => cases hl : w.txt_latin1 fp <;> simp [hu, hl]
    | ioError e => simp [hu]

/-- C9: `extract_text_from_file` dispatches on the lower-cased suffix
(`.PDF` behaves like `.pdf`), raises `ValueError` exactly when the
lower-cased suffix is none of `.pdf`, `.docx`, `.txt`, and for a `.txt`
file reads UTF-8 first, falling back to latin-1 exactly on a
`UnicodeDecodeError`. -/
theorem claim_C9_extract_dispatch (w : World) (file_path : String) :
    ((∃ m, extract_text_from_file w file_path = .raised (.valueError m)) ↔
      pyLower (pathSuffix file_path) ∉ [".pdf", ".docx", ".txt"]) ∧
    (pyLower (pathSuffix file_path) = ".pdf" →
      extract_text_from_file w file_path = extract_text_from_pdf w file_path) ∧
    (pyLower (pathSuffix file_path) = ".docx" →
      extract_text_from_file w file_path = extract_text_from_docx w file_path) ∧
    (pyLower (pathSuffix file_path) = ".txt" →
      extract_text_from_file w file_path = extract_text_from_txt w file_path) ∧
    (pyLower (pathSuffix file_path) = ".txt" →
      (∀ sOK, w.txt_utf8 file_path = .ok sOK →
        extract_text_from_file w file_path = .ok sOK) ∧
      (w.txt_utf8 file_path = .error .unicodeDecodeError →
        extract_text_from_file w file_path =
          match w.txt_latin1 file_path with
          | .ok sOK => .ok sOK
          | .error e => .raised (.exc ("Error reading TXT file: " ++ e)))) := by
  refine ⟨⟨?_, ?_⟩, ?_, ?_, ?_, ?_⟩
  · rintro ⟨m, hm⟩ hmem
    unfold extract_text_from_file at hm
    simp only [List.mem_cons, List.mem_singleton] at hmem
    rcases hmem with h | h | h | h
    · rw [h] at hm
      simp only [if_pos rfl] at hm
      exact extract_pdf_no_valueError w file_path m hm
    · rw [h] at hm
      simp at hm
      exact extract_docx_no_valueError w file_path m hm
    · rw [h] at hm
      simp at hm
      exact extract_txt_no_valueError w file_path m hm
    · simp at h
  · intro hnot
    unfold extract_text_from_file
    have h1 : pyLower (pathSuffix file_path) ≠ ".pdf" := fun h => hnot (by simp [h])
    have h2 : pyLower (pathSuffix file_path) ≠ ".docx" := fun h => hnot (by simp [h])
    have h3 : pyLower (pathSuffix file_path) ≠ ".txt" := fun h => hnot (by simp [h])
    simp [h1, h2, h3]
  · intro h
    unfold extract_text_from_file
    rw [h]
    simp
  · intro h
    unfold extract_text_from_file
    rw [h]
    simp
  · intro h
    unfold extract_text_from_file
    rw [h]
    simp
  · intro h
    constructor
    · intro sOK hOK
      unfold extract_text_from_file extract_text_from_txt
      rw [h]
      simp [hOK]
    · intro hUni
      unfold extract_text_from_file extract_text_from_txt
      rw [h]
      simp [hUni]

/-- A concrete library behaviour: a PDF reader that fails, a TXT file
whose UTF-8 read hits a `UnicodeDecodeError` but whose latin-1 read
succeeds, and a missing configuration file. -/
def wA : World :=
  { file_exists := fun _ => true
    pdf_available := true
    docx_available := true
    pdf_pages := fun _ => .error "broken pdf"
    docx_paragraphs := fun _ => .ok []
    txt_utf8 := fun _ => .error .unicodeDecodeError
    txt_latin1 := fun _ => .ok "REQ TEXT"
    config_file := fun _ => none
    openai_available := true
    gemini_available := true
    openai_api := fun _ _ => .ok "[]"
    gemini_api := fun _ _ => .ok "[]"
    jsonLoads := fun _ => .ok (.arr [])
    excel_write := fun _ => .ok () }

/-- Witness for C9: the upper-case `.TXT` file is read through the latin-1
fallback, and a `.md` file raises `ValueError`. -/
theorem claim_C9_witness :
    extract_text_from_file wA "a.TXT" = .ok "REQ TEXT" ∧
    (∃ m, extract_text_from_file wA "notes.md" = .raised (.valueError m)) := by
  constructor
  · have h := ((claim_C9_extract_dispatch wA "a.TXT").2.2.2.2 (by decide)).2 rfl
    simpa using h
  · exact (claim_C9_extract_dispatch wA "notes.md").1.mpr (by decide)

/-! ### Claim C5: the command-line interface -/

/-- Prefix monotonicity of `strStartsWith`. -/
lemma strStartsWith_mono (p q : String) (t : String)
    (hpq : (pyChars p).isPrefixOf (pyChars q) = true)
    (h : strStartsWith t q = true) : strStartsWith t p = true := by
  unfold strStartsWith at *
  rw [List.isPrefixOf_iff_prefix] at *
  exact hpq.trans h

/-- A token argparse does not treat as an option matches none of the
option branch conditions of the scan. -/
lemma notOption_facts (f : String) (h : isOptionToken f = false) :
    strStartsWith f "-o" = false ∧ strStartsWith f "-c" = false ∧
    strStartsWith f "--output=" = false ∧ strStartsWith f "--config=" = false ∧
    f ≠ "-o" ∧ f ≠ "--output" ∧ f ≠ "-c" ∧ f ≠ "--config" := by
  have hbase : strStartsWith f "-" = false ∨ f = "-" := by
    unfold isOptionToken at h
    rcases Bool.and_eq_false_iff.mp h with h1 | h1
    · exact Or.inl h1
    · right
      simpa using h1
  have hpre : ∀ p : String, (pyChars "-").isPrefixOf (pyChars p) = true →
      strStartsWith "-" p = false → strStartsWith f p = false := by
    intro p hp hdash
    rcases hbase with hb | hb
    · cases hfp : strStartsWith f p with
      | false => rfl
      | true => exact absurd (strStartsWith_mono "-" p f hp hfp) (by simp [hb])
    · rw [hb]
      exact hdash
  have h1 : strStartsWith f "-o" = false := hpre "-o" (by decide) (by decide)
  have h2 : strStartsWith f "-c" = false := hpre "-c" (by decide) (by decide)
  have h3 : strStartsWith f "--output=" = false := hpre "--output=" (by decide) (by decide)
  have h4 : strStartsWith f "--config=" = false := hpre "--config=" (by decide) (by decide)
  refine ⟨h1, h2, h3, h4, ?_, ?_, ?_, ?_⟩
  · intro he; rw [he] at h1; exact absurd h1 (by decide)
  · intro he; rw [he] at h
    exact absurd h (by decide)
  · intro he; rw [he] at h2; exact absurd h2 (by decide)
  · intro he; rw [he] at h
    exact absurd h (by decide)

/-- A non-option token is consumed as the positional argument (or rejected
when the positional slot is already filled). -/
lemma parse_args_loop_positional (f : String) (h : isOptionToken f = false)
    (rest : List String) (pos o c : Option String) :
    parse_args_loop (f :: rest) pos o c =
      match pos with
      | none => parse_args_loop rest (some f) o c
      | some _ => .error ("unrecognized arguments: " ++ f) := by
  obtain ⟨h1, h2, h3, h4, h5, h6, h7, h8⟩ := notOption_facts f h
  rw [parse_args_loop.eq_def]
  simp only []
  rw [if_neg (by simp [h5, h6]), if_neg (by simp [h3]), if_neg (by simp [h1]),
    if_neg (by simp [h7, h8]), if_neg (by simp [h4]), if_neg (by simp [h2]),
    if_neg (by simp [h])]

/-- Invariant of the argparse scan: when it succeeds, the output and
config fields keep their defaults unless an output / config option token
occurs, and the input file is one of the argv tokens (or the inherited
positional). -/
lemma parse_args_loop_inv :
    ∀ (argv : List String) (pos o c : Option String) (a : Args),
      parse_args_loop argv pos o c = .ok a →
      ((∀ t ∈ argv, strStartsWith t "-o" = false ∧ strStartsWith t "--output" = false) →
        a.output = o.getD "testcases.xlsx") ∧
      ((∀ t ∈ argv, strStartsWith t "-c" = false ∧ strStartsWith t "--config" = false) →
        a.config = c.getD "config.yaml") ∧
      (a.input_file ∈ argv ∨ pos = some a.input_file) := by
  intro argv pos o c
  induction argv, pos, o, c using parse_args_loop.induct with
  | case1 o c =>
    intro a h
    simp [parse_args_loop] at h
  | case2 f o c =>
    intro a h
    simp only [parse_args_loop, Except.ok.injEq] at h
    subst h
    exact ⟨fun _ => rfl, fun _ => rfl, Or.inr rfl⟩
  | case3 t pos o c h1 =>
    intro a h
    rw [parse_args_loop.eq_def] at h; simp only [] at h
    rw [if_pos h1] at h
    simp at h
  | case4 t pos o c h1 v rest2 ih =>
    intro a h
    rw [parse_args_loop.eq_def] at h; simp only [] at h
    rw [if_pos h1] at h
    obtain ⟨ho, hc, hin⟩ := ih a h
    refine ⟨?_, ?_, ?_⟩
    · intro hno
      obtain ⟨hto, htout⟩ := hno t (List.mem_cons_self t _)
      rcases h1 with rfl | rfl
      · exact absurd hto (by decide)
      · exact absurd htout (by decide)
    · intro hcfg
      exact hc fun t2 ht2 =>
        hcfg t2 (List.mem_cons_of_mem _ (List.mem_cons_of_mem _ ht2))
    · rcases hin with hm | hp
      · exact Or.inl (List.mem_cons_of_mem _ (List.mem_cons_of_mem _ hm))
      · exact Or.inr hp
  | case5 t rest pos o c h1 h2 ih =>
    intro a h
    rw [parse_args_loop.eq_def] at h; simp only [] at h
    rw [if_neg h1, if_pos h2] at h
    obtain ⟨ho, hc, hin⟩ := ih a h
    refine ⟨?_, ?_, ?_⟩
    · intro hno
      obtain ⟨hto, htout⟩ := hno t (List.mem_cons_self t _)
      exact absurd (strStartsWith_mono "--output" "--output=" t (by decide) h2) (by simp [htout])
    · intro hcfg
      exact hc fun t2 ht2 => hcfg t2 (List.mem_cons_of_mem _ ht2)
    · rcases hin with hm | hp
      · exact Or.inl (List.mem_cons_of_mem _ hm)
      · exact Or.inr hp
  | case6 t rest pos o c h1 h2 h3 ih =>
    intro a h
    rw [parse_args_loop.eq_def] at h; simp only [] at h
    rw [if_neg h1, if_neg h2, if_pos h3] at h
    obtain ⟨ho, hc, hin⟩ := ih a h
    refine ⟨?_, ?_, ?_⟩
    · intro hno
      obtain ⟨hto, htout⟩ := hno t (List.mem_cons_self t _)
      exact absurd h3.1 (by simp [hto])
    · intro hcfg
      exact hc fun t2 ht2 => hcfg t2 (List.mem_cons_of_mem _ ht2)
    · rcases hin with hm | hp
      · exact Or.inl (List.mem_cons_of_mem _ hm)
      · exact Or.inr hp
  | case7 t pos o c h1 h2 h3 h4 =>
    intro a h
    rw [parse_args_loop.eq_def] at h; simp only [] at h
    rw [if_neg h1, if_neg h2, if_neg h3, if_pos h4] at h
    simp at h
  | case8 t pos o c h1 h2 h3 h4 v rest2 ih =>
    intro a h
    rw [parse_args_loop.eq_def] at h; simp only [] at h
    rw [if_neg h1, if_neg h2, if_neg h3, if_pos h4] at h
    obtain ⟨ho, hc, hin⟩ := ih a h
    refine ⟨?_, ?_, ?_⟩
    · intro hno
      exact ho fun t2 ht2 =>
        hno t2 (List.mem_cons_of_mem _ (List.mem_cons_of_mem _ ht2))
    · intro hcfg
      obtain ⟨htc, htconf⟩ := hcfg t (List.mem_cons_self t _)
      rcases h4 with rfl | rfl
      · exact absurd htc (by decide)
      · exact absurd htconf (by decide)
    · rcases hin with hm | hp
      · exact Or.inl (List.mem_cons_of_mem _ (List.mem_cons_of_mem _ hm))
      · exact Or.inr hp
  | case9 t rest pos o c h1 h2 h3 h4 h5 ih =>
    intro a h
    rw [parse_args_loop.eq_def] at h; simp only [] at h
    rw [if_neg h1, if_neg h2, if_neg h3, if_neg h4, if_pos h5] at h
    obtain ⟨ho, hc, hin⟩ := ih a h
    refine ⟨?_, ?_, ?_⟩
    · intro hno
      exact ho fun t2 ht2 => hno t2 (List.mem_cons_of_mem _ ht2)
    · intro hcfg
      obtain ⟨htc, htconf⟩ := hcfg t (List.mem_cons_self t _)
      exact absurd (strStartsWith_mono "--config" "--config=" t (by decide) h5) (by simp [htconf])
    · rcases hin with hm | hp
      · exact Or.inl (List.mem_cons_of_mem _ hm)
      · exact Or.inr hp
  | case10 t rest pos o c h1 h2 h3 h4 h5 h6 ih =>
    intro a h
    rw [parse_args_loop.eq_def] at h; simp only [] at h
    rw [if_neg h1, if_neg h2, if_neg h3, if_neg h4, if_neg h5, if_pos h6] at h
    obtain ⟨ho, hc, hin⟩ := ih a h
    refine ⟨?_, ?_, ?_⟩
    · intro hno
      exact ho fun t2 ht2 => hno t2 (List.mem_cons_of_mem _ ht2)
    · intro hcfg
      obtain ⟨htc, htconf⟩ := hcfg t (List.mem_cons_self t _)
      exact absurd h6.1 (by simp [htc])
    · rcases hin with hm | hp
      · exact Or.inl (List.mem_cons_of_mem _ hm)
      · exact Or.inr hp
  | case11 t rest pos o c h1 h2 h3 h4 h5 h6 h7 =>
    intro a h
    rw [parse_args_loop.eq_def] at h; simp only [] at h
    rw [if_neg h1, if_neg h2, if_neg h3, if_neg h4, if_neg h5, if_neg h6,
      if_pos h7] at h
    simp at h
  | case12 t rest o c h1 h2 h3 h4 h5 h6 h7 ih =>
    intro a h
    rw [parse_args_loop.eq_def] at h; simp only [] at h
    rw [if_neg h1, if_neg h2, if_neg h3, if_neg h4, if_neg h5, if_neg h6,
      if_neg h7] at h
    obtain ⟨ho, hc, hin⟩ := ih a h
    refine ⟨?_, ?_, ?_⟩
    · intro hno
      exact ho fun t2 ht2 => hno t2 (List.mem_cons_of_mem _ ht2)
    · intro hcfg
      exact hc fun t2 ht2 => hcfg t2 (List.mem_cons_of_mem _ ht2)
    · rcases hin with hm | hp
      · exact Or.inl (List.mem_cons_of_mem _ hm)
      · have : t = a.input_file := by simpa using hp
        exact Or.inl (this ▸ List.mem_cons_self t _)
  | case13 t rest o c h1 h2 h3 h4 h5 h6 h7 f =>
    intro a h
    rw [parse_args_loop.eq_def] at h; simp only [] at h
    rw [if_neg h1, if_neg h2, if_neg h3, if_neg h4, if_neg h5, if_neg h6,
      if_neg h7] at h
    simp at h

/-- C5: the CLI accepts exactly one required positional argument (zero or
two positionals are rejected), an optional `-o`/`--output` whose value
defaults to `testcases.xlsx` when no output option occurs, and an
optional `-c`/`--config` defaulting to `config.yaml`. -/
theorem claim_C5_cli (f v : String) (hf : isOptionToken f = false)
    (hv : isOptionToken v = false) :
    parse_args [f] = .ok ⟨f, "testcases.xlsx", "config.yaml"⟩ ∧
    (∃ e, parse_args [] = .error e) ∧
    (∃ e, parse_args [f, v] = .error e) ∧
    parse_args ["-o", v, f] = .ok ⟨f, v, "config.yaml"⟩ ∧
    parse_args [f, "--output", v] = .ok ⟨f, v, "config.yaml"⟩ ∧
    parse_args ["-c", v, f] = .ok ⟨f, "testcases.xlsx", v⟩ ∧
    parse_args [f, "--config", v] = .ok ⟨f, "testcases.xlsx", v⟩ ∧
    (∀ argv a, parse_args argv = .ok a →
      ((∀ t ∈ argv, strStartsWith t "-o" = false ∧ strStartsWith t "--output" = false) →
        a.output = "testcases.xlsx") ∧
      ((∀ t ∈ argv, strStartsWith t "-c" = false ∧ strStartsWith t "--config" = false) →
        a.config = "config.yaml") ∧
      a.input_file ∈ argv) := by
  refine ⟨?_, ⟨"the following arguments are required: input_file", rfl⟩, ?_, ?_, ?_, ?_, ?_, ?_⟩
  · unfold parse_args
    rw [parse_args_loop_positional f hf]
    rfl
  · refine ⟨"unrecognized arguments: " ++ v, ?_⟩
    unfold parse_args
    rw [parse_args_loop_positional f hf]
    simp only []
    rw [parse_args_loop_positional v hv]
  · unfold parse_args
    rw [parse_args_loop.eq_def]
    simp only []
    rw [if_pos (Or.inl trivial)]
    rw [parse_args_loop_positional f hf]
    rfl
  · unfold parse_args
    rw [parse_args_loop_positional f hf]
    simp only []
    rw [parse_args_loop.eq_def]
    simp only []
    rw [if_pos (Or.inr trivial)]
    rfl
  · unfold parse_args
    rw [parse_args_loop.eq_def]
    simp only []
    rw [if_neg (by decide), if_neg (by decide), if_neg (by decide), if_pos (Or.inl trivial)]
    rw [parse_args_loop_positional f hf]
    rfl
  · unfold parse_args
    rw [parse_args_loop_positional f hf]
    simp only []
    rw [parse_args_loop.eq_def]
    simp only []
    rw [if_neg (by decide), if_neg (by decide), if_neg (by decide), if_pos (Or.inr trivial)]
    rfl
  · intro argv a h
    obtain ⟨ho, hc, hin⟩ := parse_args_loop_inv argv none none none a h
    refine ⟨fun hno => ho hno, fun hcfg => hc hcfg, ?_⟩
    rcases hin with hm | hp
    · exact hm
    · simp at hp

/-- Witness for C5: concrete invocations with and without the output
flag. -/
theorem claim_C5_witness :
    parse_args ["req.txt"] = .ok ⟨"req.txt", "testcases.xlsx", "config.yaml"⟩ ∧
    parse_args ["-o", "out.xlsx", "req.txt"] = .ok ⟨"req.txt", "out.xlsx", "config.yaml"⟩ :=
  ⟨(claim_C5_cli "req.txt" "out.xlsx" (by decide) (by decide)).1,
   (claim_C5_cli "req.txt" "out.xlsx" (by decide) (by decide)).2.2.2.1⟩

/-! ### Helper lemmas about runs -/

/-- Is the event an outbound API request? -/
def isApiRequest : Event → Bool
  | .apiRequest _ => true
  | _ => false

/-- Is the event a document-extraction call? -/
def isExtractCall : Event → Bool
  | .extractCall _ => true
  | _ => false

/-- Is the event a spreadsheet-export call? -/
def isSaveCall : Event → Bool
  | .saveCall _ _ => true
  | _ => false

/-- Number of events matching `p` in a trace. -/
def countEvent (p : Event → Bool) (evs : List Event) : Nat :=
  (evs.filter p).length

/-- `get_ai_engine` emits no external event in any branch. -/
lemma get_ai_engine_events (w : World) (config : JVal) :
    (get_ai_engine w config).events = [] := by
  unfold get_ai_engine
  repeat' split
  all_goals rfl

/-- The OpenAI `generate_testcases` body: one request, then either a
wrapped failure or the parsed list. -/
lemma openai_generate_run_shape (w : World) (st : OpenAIEngineState) (t : String) :
    (∃ err, OpenAIEngine.generate_run w st t =
      ⟨[], [.genCall t, .apiRequest (OpenAIEngine.build_prompt t)], .raised err⟩) ∨
    (∃ tcs, OpenAIEngine.generate_run w st t =
      ⟨[], [.genCall t, .apiRequest (OpenAIEngine.build_prompt t), .genRet tcs], .ok tcs⟩) := by
  unfold OpenAIEngine.generate_run
  cases hapi : w.openai_api st.model (OpenAIEngine.build_prompt t) with
  | error e =>
    left
    exact ⟨.exc ("Error calling OpenAI API: " ++ (PyErr.exc e).message),
      by simp [PRes.bind, PRes.emit, PRes.tryE, PRes.raise, hapi]⟩
  | ok content =>
    cases hp : OpenAIEngine.parse_response w.jsonLoads content with
    | error e =>
      left
      exact ⟨.exc ("Error calling OpenAI API: " ++ e.message),
        by simp [PRes.bind, PRes.emit, PRes.tryE, PRes.raise, hapi, hp]⟩
    | ok tcs =>
      right
      exact ⟨tcs,
        by simp [PRes.bind, PRes.emit, PRes.tryE, PRes.raise, PRes.pure, hapi, hp]⟩

/-- The Gemini `generate_testcases` body: one request, then either a
wrapped failure or the parsed list. -/
lemma gemini_generate_run_shape (w : World) (st : GeminiEngineState) (t : String) :
    (∃ err, GeminiEngine.generate_run w st t =
      ⟨[], [.genCall t, .apiRequest (GeminiEngine.build_prompt t)], .raised err⟩) ∨
    (∃ tcs, GeminiEngine.generate_run w st t =
      ⟨[], [.genCall t, .apiRequest (GeminiEngine.build_prompt t), .genRet tcs], .ok tcs⟩) := by
  unfold GeminiEngine.generate_run
  cases hapi : w.gemini_api st.model (GeminiEngine.build_prompt t) with
  | error e =>
    left
    exact ⟨.exc ("Error calling Gemini API: " ++ (PyErr.exc e).message),
      by simp [PRes.bind, PRes.emit, PRes.tryE, PRes.raise, hapi]⟩
  | ok content =>
    cases hp : GeminiEngine.parse_response w.jsonLoads content with
    | error e =>
      left
      exact ⟨.exc ("Error calling Gemini API: " ++ e.message),
        by simp [PRes.bind, PRes.emit, PRes.tryE, PRes.raise, hapi, hp]⟩
    | ok tcs =>
      right
      exact ⟨tcs,
        by simp [PRes.bind, PRes.emit, PRes.tryE, PRes.raise, PRes.pure, hapi, hp]⟩

/-- Virtual dispatch preserves the single-request run shape. -/
lemma Engine.generate_shape (w : World) (e : Engine) (t : String) :
    (∃ pr err, Engine.generate w e t = ⟨[], [.genCall t, .apiRequest pr], .raised err⟩) ∨
    (∃ pr tcs, Engine.generate w e t = ⟨[], [.genCall t, .apiRequest pr, .genRet tcs], .ok tcs⟩) := by
  cases e with
  | openaiE st =>
    show (∃ pr err, OpenAIEngine.generate_run w st t = _) ∨ (∃ pr tcs, OpenAIEngine.generate_run w st t = _)
    rcases openai_generate_run_shape w st t with ⟨err, hsh⟩ | ⟨tcs, hsh⟩
    · exact Or.inl ⟨_, err, hsh⟩
    · exact Or.inr ⟨_, tcs, hsh⟩
  | geminiE st =>
    show (∃ pr err, GeminiEngine.generate_run w st t = _) ∨ (∃ pr tcs, GeminiEngine.generate_run w st t = _)
    rcases gemini_generate_run_shape w st t with ⟨err, hsh⟩ | ⟨tcs, hsh⟩
    · exact Or.inl ⟨_, err, hsh⟩
    · exact Or.inr ⟨_, tcs, hsh⟩

/-- Shape of a pipeline run: its event trace is a prefix-closed chain
`extractCall, extractRet, genCall, apiRequest, genRet, saveCall`, and a
successful run reaches the full chain, with the generate input equal to
the extract output and the save input equal to the generate output. -/
lemma main_pipeline_shape (w : World) (args : Args) :
    ((main_pipeline w args).events = [.extractCall args.input_file] ∨
     (∃ t, (main_pipeline w args).events = [.extractCall args.input_file, .extractRet t]) ∨
     (∃ t pr, (main_pipeline w args).events =
       [.extractCall args.input_file, .extractRet t, .genCall t, .apiRequest pr]) ∨
     (∃ t pr tcs, (main_pipeline w args).events =
       [.extractCall args.input_file, .extractRet t, .genCall t, .apiRequest pr, .genRet tcs]) ∨
     (∃ t pr tcs, (main_pipeline w args).events =
       [.extractCall args.input_file, .extractRet t, .genCall t, .apiRequest pr, .genRet tcs,
        .saveCall tcs args.output])) ∧
    ((main_pipeline w args).res = .ok () →
      ∃ t pr tcs, (main_pipeline w args).events =
        [.extractCall args.input_file, .extractRet t, .genCall t, .apiRequest pr, .genRet tcs,
         .saveCall tcs args.output]) := by
  unfold main_pipeline
  cases hext : extract_text_from_file w args.input_file with
  | raised e =>
    refine ⟨Or.inl ?_, fun hok => absurd hok ?_⟩ <;>
      simp [PRes.bind, hext]
  | exited n =>
    refine ⟨Or.inl ?_, fun hok => absurd hok ?_⟩ <;>
      simp [PRes.bind, hext]
  | ok t =>
    by_cases hstrip : (pyStrip t).isEmpty
    · refine ⟨Or.inr (Or.inl ⟨t, ?_⟩), fun hok => absurd hok ?_⟩ <;>
        simp [PRes.bind, PRes.printL, PRes.sysExit, hext, hstrip]
    · cases hcf : w.config_file args.config with
      | none =>
        refine ⟨Or.inr (Or.inl ⟨t, ?_⟩), fun hok => absurd hok ?_⟩ <;>
          simp [PRes.bind, PRes.printL, PRes.sysExit, load_config, hext, hstrip, hcf]
      | some r =>
        cases r with
        | error e2 =>
          refine ⟨Or.inr (Or.inl ⟨t, ?_⟩), fun hok => absurd hok ?_⟩ <;>
            simp [PRes.bind, PRes.printL, PRes.sysExit, load_config, hext, hstrip, hcf]
        | ok cfg =>
          cases cfg with
          | str s0 =>
            refine ⟨Or.inr (Or.inl ⟨t, ?_⟩), fun hok => absurd hok ?_⟩ <;>
              simp [PRes.bind, PRes.printL, PRes.sysExit, PRes.raise, load_config, get_ai_engine,
                hext, hstrip, hcf]
          | num n0 =>
            refine ⟨Or.inr (Or.inl ⟨t, ?_⟩), fun hok => absurd hok ?_⟩ <;>
              simp [PRes.bind, PRes.printL, PRes.sysExit, PRes.raise, load_config, get_ai_engine,
                hext, hstrip, hcf]
          | bool b0 =>
            refine ⟨Or.inr (Or.inl ⟨t, ?_⟩), fun hok => absurd hok ?_⟩ <;>
              simp [PRes.bind, PRes.printL, PRes.sysExit, PRes.raise, load_config, get_ai_engine,
                hext, hstrip, hcf]
          | null =>
            refine ⟨Or.inr (Or.inl ⟨t, ?_⟩), fun hok => absurd hok ?_⟩ <;>
              simp [PRes.bind, PRes.printL, PRes.sysExit, PRes.raise, load_config, get_ai_engine,
                hext, hstrip, hcf]
          | arr items0 =>
            refine ⟨Or.inr (Or.inl ⟨t, ?_⟩), fun hok => absurd hok ?_⟩ <;>
              simp [PRes.bind, PRes.printL, PRes.sysExit, PRes.raise, load_config, get_ai_engine,
                hext, hstrip, hcf]
          | obj cfgd =>
            cases hres : (get_ai_engine w (JVal.obj cfgd)).res with
            | raised e2 =>
              refine ⟨Or.inr (Or.inl ⟨t, ?_⟩), fun hok => absurd hok ?_⟩ <;>
                simp [PRes.bind, PRes.printL, PRes.sysExit, load_config, hext, hstrip, hcf,
                  get_ai_engine_events, hres]
            | exited n2 =>
              refine ⟨Or.inr (Or.inl ⟨t, ?_⟩), fun hok => absurd hok ?_⟩ <;>
                simp [PRes.bind, PRes.printL, PRes.sysExit, load_config, hext, hstrip, hcf,
                  get_ai_engine_events, hres]
            | ok eng =>
              rcases Engine.generate_shape w eng t with ⟨pr, err, hsh⟩ | ⟨pr, tcs, hsh⟩
              · refine ⟨Or.inr (Or.inr (Or.inl ⟨t, pr, ?_⟩)), fun hok => absurd hok ?_⟩ <;>
                  simp [PRes.bind, PRes.printL, PRes.sysExit, load_config, hext, hstrip, hcf,
                    get_ai_engine_events, hres, hsh]
              · by_cases hemp : tcs.isEmpty
                · refine ⟨Or.inr (Or.inr (Or.inr (Or.inl ⟨t, pr, tcs, ?_⟩))),
                    fun hok => absurd hok ?_⟩ <;>
                    simp [PRes.bind, PRes.printL, PRes.sysExit, load_config, hext, hstrip, hcf,
                      get_ai_engine_events, hres, hsh, hemp]
                · cases hw : w.excel_write args.output with
                  | error e3 =>
                    refine ⟨Or.inr (Or.inr (Or.inr (Or.inr ⟨t, pr, tcs, ?_⟩))),
                      fun hok => absurd hok ?_⟩ <;>
                      simp [PRes.bind, PRes.printL, PRes.sysExit, PRes.raise, PRes.emit,
                        load_config, save_testcases_to_excel_run, save_testcases_to_excel,
                        hext, hstrip, hcf, get_ai_engine_events, hres, hsh, hemp, hw]
                  | ok u =>
                    constructor
                    · refine Or.inr (Or.inr (Or.inr (Or.inr ⟨t, pr, tcs, ?_⟩)))
                      simp [PRes.bind, PRes.printL, PRes.sysExit, PRes.raise, PRes.emit,
                        load_config, save_testcases_to_excel_run, save_testcases_to_excel,
                        hext, hstrip, hcf, get_ai_engine_events, hres, hsh, hemp, hw]
                    · intro hok
                      refine ⟨t, pr, tcs, ?_⟩
                      simp [PRes.bind, PRes.printL, PRes.sysExit, PRes.raise, PRes.emit,
                        load_config, save_testcases_to_excel_run, save_testcases_to_excel,
                        hext, hstrip, hcf, get_ai_engine_events, hres, hsh, hemp, hw]

/-- The events of a full run are empty (argparse failure or missing input
file) or exactly the pipeline events: the handler adds none. -/
lemma main_events_cases (w : World) (argv : List String) :
    (Main.main w argv).events = [] ∨
    ∃ args, parse_args argv = .ok args ∧
      (Main.main w argv).events = (main_pipeline w args).events := by
  unfold Main.main
  cases hp : parse_args argv with
  | error m => exact Or.inl rfl
  | ok args =>
    cases hfe : w.file_exists args.input_file with
    | false => exact Or.inl (by simp [hfe])
    | true =>
      refine Or.inr ⟨args, rfl, ?_⟩
      cases hres : (main_pipeline w args).res <;>
        simp [PRes.bind, PRes.tryE, PRes.printL, PRes.sysExit, hfe, hres]

/-- Each of the five pipeline event shapes contains each call event at
most once. -/
lemma pipeline_counts (w : World) (args : Args) :
    countEvent isExtractCall (main_pipeline w args).events ≤ 1 ∧
    countEvent isApiRequest (main_pipeline w args).events ≤ 1 ∧
    countEvent isSaveCall (main_pipeline w args).events ≤ 1 := by
  rcases (main_pipeline_shape w args).1 with h | ⟨t, h⟩ | ⟨t, pr, h⟩ | ⟨t, pr, tcs, h⟩ |
    ⟨t, pr, tcs, h⟩ <;>
    rw [h] <;>
    simp [countEvent, isExtractCall, isApiRequest, isSaveCall]

/-- C2: no exception escapes `main`: a raise anywhere in the pipeline is
caught by the single broad handler, which prints one error line and exits
with status 1; and no pipeline operation runs twice (each of the extract,
API-request and save events occurs at most once in any run). -/
theorem claim_C2_single_broad_handler (w : World) (argv : List String) :
    (∀ e, (Main.main w argv).res ≠ .raised e) ∧
    (∀ args e, parse_args argv = .ok args → w.file_exists args.input_file = true →
      (main_pipeline w args).res = .raised e →
      (Main.main w argv).res = .exited 1 ∧
      (Main.main w argv).log =
        ("📖 Reading requirement document: " ++ args.input_file) ::
          ((main_pipeline w args).log ++ ["❌ Error during processing: " ++ e.message])) ∧
    countEvent isExtractCall (Main.main w argv).events ≤ 1 ∧
    countEvent isApiRequest (Main.main w argv).events ≤ 1 ∧
    countEvent isSaveCall (Main.main w argv).events ≤ 1 := by
  refine ⟨?_, ?_, ?_⟩
  · intro e
    unfold Main.main
    cases hp : parse_args argv with
    | error m => simp
    | ok args =>
      cases hfe : w.file_exists args.input_file with
      | false => simp [hfe]
      | true =>
        cases hres : (main_pipeline w args).res <;>
          simp [PRes.bind, PRes.tryE, PRes.printL, PRes.sysExit, hfe, hres]
  · intro args e hp hfe hres
    unfold Main.main
    rw [hp]
    constructor <;>
      simp [PRes.bind, PRes.tryE, PRes.printL, PRes.sysExit, hfe, hres]
  · rcases main_events_cases w argv with h | ⟨args, _, h⟩
    · rw [h]
      exact ⟨Nat.zero_le 1, Nat.zero_le 1, Nat.zero_le 1⟩
    · rw [h]
      exact pipeline_counts w args
/-- Witness world for C2: the latin-1 fallback read also fails, so text
extraction raises inside the pipeline. -/
def wB : World :=
  { wA with txt_latin1 := fun _ => .error "boom" }

/-- Witness for C2: with both text reads failing, the pipeline raises and
`main` exits with status 1 after printing the handler line. -/
theorem claim_C2_witness :
    (Main.main wB ["r.txt"]).res = .exited 1 ∧
    (Main.main wB ["r.txt"]).log =
      ("📖 Reading requirement document: " ++ (Args.mk "r.txt" "testcases.xlsx" "config.yaml").input_file) ::
        ((main_pipeline wB (Args.mk "r.txt" "testcases.xlsx" "config.yaml")).log ++
          ["❌ Error during processing: " ++ (PyErr.exc "Error reading TXT file: boom").message]) :=
  (claim_C2_single_broad_handler wB ["r.txt"]).2.1
    (Args.mk "r.txt" "testcases.xlsx" "config.yaml")
    (PyErr.exc "Error reading TXT file: boom") rfl rfl rfl

/-- C4: a successful run is a pure pass-through: the text handed to the
engine (`genCall`) is exactly the extraction result (`extractRet`), and
the list handed to the Excel export (`saveCall`) is exactly the list the
engine returned (`genRet`). -/
theorem claim_C4_pass_through (w : World) (argv : List String)
    (h : (Main.main w argv).res = .ok ()) :
    ∃ args t pr tcs,
      parse_args argv = .ok args ∧
      (Main.main w argv).events =
        [.extractCall args.input_file, .extractRet t, .genCall t, .apiRequest pr, .genRet tcs,
         .saveCall tcs args.output] := by
  revert h
  unfold Main.main
  cases hp : parse_args argv with
  | error m => intro h; simp at h
  | ok args =>
    cases hfe : w.file_exists args.input_file with
    | false => intro h; simp [hfe] at h
    | true =>
      cases hres : (main_pipeline w args).res with
      | raised e =>
        intro h
        exfalso
        simp [PRes.bind, PRes.tryE, PRes.printL, PRes.sysExit, hfe, hres] at h
      | exited n =>
        intro h
        exfalso
        simp [PRes.bind, PRes.tryE, PRes.printL, PRes.sysExit, hfe, hres] at h
      | ok u =>
        intro h
        obtain ⟨t, pr, tcs, hev⟩ := (main_pipeline_shape w args).2 (by rw [hres])
        refine ⟨args, t, pr, tcs, rfl, ?_⟩
        rw [← hev]
        simp [PRes.bind, PRes.tryE, PRes.printL, hfe, hres]

/-- C7: each engine's `generate_testcases` issues exactly one outbound API
request per invocation, also when the request or the parse fails. -/
theorem claim_C7_single_api_request (w : World) (gmod : Option JVal)
    (ost : OpenAIEngineState) (gst : GeminiEngineState) (t : String) :
    countEvent isApiRequest (OpenAIEngine.generate_testcases w gmod ost t).2.2.events = 1 ∧
    countEvent isApiRequest (GeminiEngine.generate_testcases w gmod gst t).2.2.events = 1 := by
  constructor
  · rcases openai_generate_run_shape w ost t with ⟨err, hsh⟩ | ⟨tcs, hsh⟩ <;>
      simp [OpenAIEngine.generate_testcases, hsh, countEvent, isApiRequest]
  · rcases gemini_generate_run_shape w gst t with ⟨err, hsh⟩ | ⟨tcs, hsh⟩ <;>
      simp [GeminiEngine.generate_testcases, hsh, countEvent, isApiRequest]

/-- C10: `generate_testcases` mutates neither the engine state (client /
model) nor the `genai` module state: both come back unchanged, so two
successive calls start from identical state. -/
theorem claim_C10_no_mutation (w : World) (gmod : Option JVal)
    (ost : OpenAIEngineState) (gst : GeminiEngineState) (t : String) :
    (OpenAIEngine.generate_testcases w gmod ost t).1 = gmod ∧
    (OpenAIEngine.generate_testcases w gmod ost t).2.1 = ost ∧
    (GeminiEngine.generate_testcases w gmod gst t).1 = gmod ∧
    (GeminiEngine.generate_testcases w gmod gst t).2.1 = gst :=
  ⟨rfl, rfl, rfl, rfl⟩

/-- C8: `load_config` returns the parsed YAML value when the file exists
and parses; a missing file or a YAML error prints its own message and
exits with status 1 directly; and inside `main` this `SystemExit` passes
through the broad `except Exception` handler untouched: the run exits 1
with only the `load_config` message, no handler line. -/
theorem claim_C8_load_config (w : World) (p : String) :
    (∀ cfg, w.config_file p = some (.ok cfg) → load_config w p = ⟨[], [], .ok cfg⟩) ∧
    (w.config_file p = none →
      load_config w p =
        ⟨["❌ Configuration file \x27" ++ p ++ "\x27 not found."], [], .exited 1⟩) ∧
    (∀ e, w.config_file p = some (.error e) →
      load_config w p = ⟨["❌ Error parsing configuration file: " ++ e], [], .exited 1⟩) ∧
    (∀ argv args t, parse_args argv = .ok args → args.config = p →
      w.file_exists args.input_file = true →
      extract_text_from_file w args.input_file = .ok t → (pyStrip t).isEmpty = false →
      w.config_file p = none →
      (Main.main w argv).res = .exited 1 ∧
      (Main.main w argv).log =
        ["📖 Reading requirement document: " ++ args.input_file,
         "✅ Extracted " ++ toString t.length ++ " characters from document",
         "❌ Configuration file \x27" ++ p ++ "\x27 not found."]) := by
  refine ⟨?_, ?_, ?_, ?_⟩
  · intro cfg h
    unfold load_config
    rw [h]
  · intro h
    unfold load_config
    rw [h]
  · intro e h
    unfold load_config
    rw [h]
  · intro argv args t hp hpc hfe hext hstrip hcf
    subst hpc
    unfold Main.main main_pipeline
    rw [hp]
    constructor <;>
      simp [PRes.bind, PRes.tryE, PRes.printL, PRes.sysExit, load_config, hfe, hext, hstrip, hcf]

/-- Witness for C8: with `wA` (config file missing, extraction succeeding
through the latin-1 fallback) the run exits 1 printing exactly the three
lines, the last being the `load_config` message. -/
theorem claim_C8_witness :
    (Main.main wA ["r.txt"]).res = .exited 1 ∧
    (Main.main wA ["r.txt"]).log =
      ["📖 Reading requirement document: " ++ (Args.mk "r.txt" "testcases.xlsx" "config.yaml").input_file,
       "✅ Extracted " ++ toString "REQ TEXT".length ++ " characters from document",
       "❌ Configuration file \x27" ++ "config.yaml" ++ "\x27 not found."] :=
  (claim_C8_load_config wA "config.yaml").2.2.2 ["r.txt"]
    (Args.mk "r.txt" "testcases.xlsx" "config.yaml") "REQ TEXT" rfl rfl rfl rfl rfl rfl

/-- Witness world for C4: every stage succeeds: UTF-8 text, a parsing
config with an OpenAI key, an API response with a JSON array holding one
dict, and a writable spreadsheet. -/
def wC : World :=
  { wA with
    txt_utf8 := fun _ => .ok "REQ"
    config_file := fun _ => some (.ok (.obj
      [("ai_engine", .str "openai"), ("openai", .obj [("api_key", .str "k")])]))
    openai_api := fun _ _ => .ok "[1]"
    jsonLoads := fun _ => .ok (.arr [.obj []]) }

/-- Witness for C4: the fully successful run produces the six-event
pass-through trace. -/
theorem claim_C4_witness :
    ∃ args t pr tcs,
      parse_args ["req.txt"] = .ok args ∧
      (Main.main wC ["req.txt"]).events =
        [.extractCall args.input_file, .extractRet t, .genCall t, .apiRequest pr, .genRet tcs,
         .saveCall tcs args.output] :=
  claim_C4_pass_through wC ["req.txt"] rfl
